import Mathlib

/-!
Verification of the `qbouts::ParameterMap` container (header `include/ParameterMap.h`).

The development is a shallow embedding of the class for the parameter-type
universe exercised by the repository (`int`, `bool`, `std::string`, after the
`remove_cv_t<remove_reference_t<...>>` stripping the class performs on both its
declared parameter types and on arguments).  The C++ class is a template over
the declared parameter pack; the embedding carries the declared base types as a
runtime list, which is faithful because every runtime behaviour of the class
iterates uniformly over the indices `0 .. N-1` (via `detail::static_for`) and
evaluates per-index compile-time predicates that depend only on the declared
base type at that index.

Exceptions become an `Err` value in an `Except` result; mutation becomes
explicit state passing (each mutator returns the updated map).
-/

namespace qbouts

/-- The declared base types (`remove_cv_t<remove_reference_t<PARAMETERS>>`)
appearing in the repository's instantiations: `int`, `bool`, `std::string`. -/
inductive Ty : Type where
  | tInt : Ty
  | tBool : Ty
  | tStr : Ty
deriving DecidableEq, Repr

/-- Runtime values of the base types. -/
inductive Val : Type where
  | vInt (n : Int) : Val
  | vBool (b : Bool) : Val
  | vStr (s : String) : Val
deriving DecidableEq, Repr

/-- The base type of a value. -/
def Val.ty : Val → Ty
  | .vInt _ => .tInt
  | .vBool _ => .tBool
  | .vStr _ => .tStr

/-- `std::is_convertible_v` between the base types of the universe:
`int` and `bool` convert to each other, `std::string` only to itself. -/
def convertible : Ty → Ty → Bool
  | .tInt, .tInt => true
  | .tInt, .tBool => true
  | .tBool, .tInt => true
  | .tBool, .tBool => true
  | .tStr, .tStr => true
  | _, _ => false

/-- The implicit conversion performed by `std::optional<Base> = value`
(the assignment in `set<INDEX>`): identity on the same type, the usual
`int`/`bool` conversions otherwise, `none` when `std::is_convertible_v`
does not hold (such a call does not compile in C++). -/
def convert : Val → Ty → Option Val
  | .vInt n, .tInt => some (.vInt n)
  | .vInt n, .tBool => some (.vBool (n != 0))
  | .vBool b, .tInt => some (.vInt (if b then 1 else 0))
  | .vBool b, .tBool => some (.vBool b)
  | .vStr s, .tStr => some (.vStr s)
  | _, _ => none

/-- Model of `std::hash<std::string>` / `std::hash<std::string_view>`
(the same string always hashes to the same value in both).  The model hash is
injective, so equal hashes coincide with equal names; real `std::hash`
collisions between distinct names are a documented caller hazard outside the
spec's scope. -/
def strHash (s : String) : Nat :=
  s.data.foldl (fun a c => a * 1114113 + (c.toNat + 1)) 0

/-- The exception kinds thrown by the class, named after the C++ types:
`std::invalid_argument` ("argument mismatch"), `std::out_of_range`
("index out of range") and `std::runtime_error` ("missing value"). -/
inductive Err : Type where
  | invalid_argument : Err
  | out_of_range : Err
  | runtime_error : Err
deriving DecidableEq, Repr

/-- State of a `ParameterMap<PARAMETERS...>` object:
`paramTypes` lists the declared base types (the template arguments, stripped),
`nameHashes` is `m_parameter_name_hashes`, and `storedValues` is
`m_stored_values` (the tuple of `std::optional` slots). -/
structure ParameterMap : Type where
  paramTypes : List Ty
  nameHashes : List Nat
  storedValues : List (Option Val)
deriving DecidableEq, Repr

/-- Constructor: stores `std::hash` of each supplied name positionally;
all slots start empty.  (The arity check `sizeof...(PARAMETERS) ==
sizeof...(PARAM_NAMES)` is a compile-time requirement, captured by the
well-formedness predicate `ParameterMap.WF`.) -/
def ParameterMap.init (tys : List Ty) (names : List String) : ParameterMap :=
  { paramTypes := tys
    nameHashes := names.map strHash
    storedValues := tys.map (fun _ => none) }

/-- `n_parameters = sizeof...(PARAMETERS)`. -/
def ParameterMap.n_parameters (m : ParameterMap) : Nat :=
  m.paramTypes.length

/-- Well-formedness: the two member arrays both have `n_parameters` entries
(automatic in C++, where both are sized by the parameter pack). -/
def ParameterMap.WF (m : ParameterMap) : Prop :=
  m.nameHashes.length = m.n_parameters ∧ m.storedValues.length = m.n_parameters

instance (m : ParameterMap) : Decidable m.WF := by
  unfold ParameterMap.WF; infer_instance

/-- `BaseTypeAt_t<i>`: the declared base type of slot `i`. -/
def ParameterMap.type_at (m : ParameterMap) (i : Nat) : Ty :=
  m.paramTypes.getD i .tInt

/-- The stored name hash of slot `i` (`m_parameter_name_hashes[i]`). -/
def ParameterMap.name_hash_at (m : ParameterMap) (i : Nat) : Nat :=
  m.nameHashes.getD i 0

/-- `std::get<i>(m_stored_values)`: the optional slot `i`. -/
def ParameterMap.stored_at (m : ParameterMap) (i : Nat) : Option Val :=
  m.storedValues.getD i none

/-- `throw_if_index_out_of_range`: throws `std::out_of_range` when
`index >= n_parameters`. -/
def ParameterMap.throw_if_index_out_of_range (m : ParameterMap) (index : Nat) :
    Except Err Unit :=
  if index ≥ m.n_parameters then .error .out_of_range else .ok ()

/-- `IsSettableFrom<TYPE>::value_for(i)`:
`std::is_convertible_v<remove_cv_t<remove_reference_t<TYPE>>, BaseTypeAt_t<i>>`. -/
def ParameterMap.is_settable_from (m : ParameterMap) (t : Ty) (i : Nat) : Bool :=
  convertible t (m.type_at i)

/-- `IsGettableAs<TYPE>::value_for(i)`:
`std::is_same_v<remove_cv_t<remove_reference_t<TYPE>>, BaseTypeAt_t<i>>`. -/
def ParameterMap.is_gettable_as (m : ParameterMap) (t : Ty) (i : Nat) : Bool :=
  decide (t = m.type_at i)

/-- `TruePredicate::value_for`. -/
def ParameterMap.true_predicate (_m : ParameterMap) (_i : Nat) : Bool :=
  true

/-- `ensure_name_matches(name)`: the runtime predicate comparing the stored
hash at an index with the hash of the supplied name (computed once). -/
def ParameterMap.ensure_name_matches (m : ParameterMap) (name : String)
    (i : Nat) : Bool :=
  decide (m.name_hash_at i = strHash name)

/-- `pass_first_index_matching_predicate_to`: `static_for<0, n_parameters>`
scanning for the first index satisfying both the compile-time predicate and
the runtime predicate; throws `std::invalid_argument`
("No parameters match the given input") when none does.  The continuation the
C++ version invokes on the found index is returned as the index itself. -/
def ParameterMap.pass_first_index_matching_predicate (m : ParameterMap)
    (ct rt : Nat → Bool) : Except Err Nat :=
  match (List.range m.n_parameters).find? (fun i => ct i && rt i) with
  | some i => .ok i
  | none => .error .invalid_argument

/-- `set<INDEX>(value)`: direct positional store,
`std::get<INDEX>(m_stored_values) = std::forward<T>(value)` — assigning the
`std::optional<Base>` performs the implicit conversion to the declared base
type.  (A call with an inconvertible argument type does not compile in C++;
theorems about this operation therefore carry a convertibility hypothesis.) -/
def ParameterMap.set_ct (m : ParameterMap) (i : Nat) (v : Val) : ParameterMap :=
  { m with storedValues := m.storedValues.set i (convert v (m.type_at i)) }

/-- `set(name, value)`: resolve via `IsSettableFrom` + `ensure_name_matches`,
then store at the found index. -/
def ParameterMap.set_by_name (m : ParameterMap) (name : String) (v : Val) :
    Except Err ParameterMap :=
  match m.pass_first_index_matching_predicate (m.is_settable_from v.ty)
      (m.ensure_name_matches name) with
  | .ok i => .ok (m.set_ct i v)
  | .error e => .error e

/-- `set(index, value)`: bounds check first (`throw_if_index_out_of_range`),
then resolve via `IsSettableFrom` + the `i == index` runtime predicate. -/
def ParameterMap.set_rt (m : ParameterMap) (index : Nat) (v : Val) :
    Except Err ParameterMap :=
  match m.throw_if_index_out_of_range index with
  | .error e => .error e
  | .ok _ =>
    match m.pass_first_index_matching_predicate (m.is_settable_from v.ty)
        (fun i => i == index) with
    | .ok i => .ok (m.set_ct i v)
    | .error e => .error e

/-- `is_set<INDEX>()`: `std::get<INDEX>(m_stored_values).has_value()`. -/
def ParameterMap.is_set_ct (m : ParameterMap) (i : Nat) : Bool :=
  (m.stored_at i).isSome

/-- `throw_if_no_value_stored_for_index<INDEX>` followed by
`std::get<INDEX>(m_stored_values).value()`: the shared tail of all three
`get` overloads. -/
def ParameterMap.get_ct (m : ParameterMap) (i : Nat) : Except Err Val :=
  match m.stored_at i with
  | some v => .ok v
  | none => .error .runtime_error

/-- `get<T>(name)`: resolve via `IsGettableAs` + `ensure_name_matches`, then
require a stored value and return it. -/
def ParameterMap.get_by_name (m : ParameterMap) (t : Ty) (name : String) :
    Except Err Val :=
  match m.pass_first_index_matching_predicate (m.is_gettable_as t)
      (m.ensure_name_matches name) with
  | .ok i => m.get_ct i
  | .error e => .error e

/-- `get<T>(index)`: bounds check first, then resolve via `IsGettableAs` +
the `i == index` runtime predicate, then require a stored value. -/
def ParameterMap.get_rt (m : ParameterMap) (t : Ty) (index : Nat) :
    Except Err Val :=
  match m.throw_if_index_out_of_range index with
  | .error e => .error e
  | .ok _ =>
    match m.pass_first_index_matching_predicate (m.is_gettable_as t)
        (fun i => i == index) with
    | .ok i => m.get_ct i
    | .error e => .error e

/-- `is_set(name)`: resolve via `TruePredicate` + `ensure_name_matches`, then
report occupancy of the found slot. -/
def ParameterMap.is_set_by_name (m : ParameterMap) (name : String) :
    Except Err Bool :=
  match m.pass_first_index_matching_predicate m.true_predicate
      (m.ensure_name_matches name) with
  | .ok i => .ok (m.is_set_ct i)
  | .error e => .error e

/-- `is_set(index)`: resolve via `TruePredicate` + the `i == index` runtime
predicate.  NOTE (faithful to the source): unlike `set(index, value)` and
`get<T>(index)`, this overload performs NO `throw_if_index_out_of_range`
call, so an out-of-range index falls through to the resolver's
`std::invalid_argument`. -/
def ParameterMap.is_set_rt (m : ParameterMap) (index : Nat) :
    Except Err Bool :=
  match m.pass_first_index_matching_predicate m.true_predicate
      (fun i => i == index) with
  | .ok i => .ok (m.is_set_ct i)
  | .error e => .error e

/-- `clear()`: `static_for<0, n_parameters>` resetting every optional slot;
`noexcept`, total. -/
def ParameterMap.clear (m : ParameterMap) : ParameterMap :=
  { m with storedValues := m.storedValues.map (fun _ => none) }

/-- The argument list `*std::get<I>(t)...` built by `detail::apply_optionals`:
each slot dereferenced, in declared order.  (Dereferencing an empty optional
is unreachable: `submit` checks every slot first; the default is arbitrary.) -/
def ParameterMap.arg_values (m : ParameterMap) : List Val :=
  m.storedValues.map (fun o => o.getD (.vInt 0))

/-- `submit(function)`, instrumented: the supplied function is a state
transformer `f : σ → List Val → σ × ρ` so that side effects (and hence the
number of invocations) are observable.  The body first runs
`static_for<0, n_parameters>` checking `is_set<i>()`, throwing
`std::runtime_error` ("Unable to call function: No stored value for
parameter") at the first empty slot, and only then reaches the single call
site `detail::apply_optionals(function, m_stored_values)`.  The member is
`const`: the map component of the result is the receiver unchanged. -/
def ParameterMap.submitS {σ ρ : Type} (m : ParameterMap)
    (f : σ → List Val → σ × ρ) (s : σ) : ParameterMap × σ × Except Err ρ :=
  if (List.range m.n_parameters).all (fun i => m.is_set_ct i) then
    ((m, (f s m.arg_values).1, .ok (f s m.arg_values).2) :
      ParameterMap × σ × Except Err ρ)
  else
    (m, s, .error .runtime_error)

/-- `submit(function)` for an effect-free function. -/
def ParameterMap.submit {ρ : Type} (m : ParameterMap) (g : List Val → ρ) :
    Except Err ρ :=
  (m.submitS (fun (u : Unit) args => (u, g args)) ()).2.2

instance {ε α : Type} [DecidableEq ε] [DecidableEq α] :
    DecidableEq (Except ε α) := fun a b =>
  match a, b with
  | .ok x, .ok y =>
    if h : x = y then isTrue (by rw [h])
    else isFalse (by intro hc; cases hc; exact h rfl)
  | .error x, .error y =>
    if h : x = y then isTrue (by rw [h])
    else isFalse (by intro hc; cases hc; exact h rfl)
  | .ok _, .error _ => isFalse (by intro hc; cases hc)
  | .error _, .ok _ => isFalse (by intro hc; cases hc)

/-! ### Helper lemmas -/

theorem convertible_refl (t : Ty) : convertible t t = true := by
  cases t <;> rfl

theorem convert_of_ty_eq {v : Val} {t : Ty} (h : v.ty = t) :
    convert v t = some v := by
  subst h; cases v <;> rfl

theorem find?_range'_first (p : Nat → Bool) (i : Nat) :
    ∀ (n s : Nat), s ≤ i → i < s + n → p i = true →
      (∀ j, s ≤ j → j < i → p j = false) →
      (List.range' s n).find? p = some i := by
  intro n
  induction n with
  | zero => intro s h1 h2 _ _; omega
  | succ n ih =>
    intro s hsi hin hp hmin
    rw [List.range'_succ]
    by_cases hps : p s = true
    · have his : i = s := by
        by_contra hne
        have hslt : s < i := Nat.lt_of_le_of_ne hsi (fun h => hne h.symm)
        rw [hmin s (Nat.le_refl s) hslt] at hps
        exact Bool.false_ne_true hps
      rw [his]
      exact List.find?_cons_of_pos _ hps
    · rw [List.find?_cons_of_neg _ hps]
      have hne : s ≠ i := by
        intro h; rw [h] at hps; exact hps hp
      exact ih (s + 1) (by omega) (by omega) hp
        (fun j hj1 hj2 => hmin j (by omega) hj2)

theorem find?_range_first (p : Nat → Bool) {i n : Nat} (hin : i < n)
    (hp : p i = true) (hmin : ∀ j, j < i → p j = false) :
    (List.range n).find? p = some i := by
  rw [List.range_eq_range']
  exact find?_range'_first p i n 0 (Nat.zero_le i) (by omega) hp
    (fun j _ hj => hmin j hj)

theorem find?_range_none (p : Nat → Bool) {n : Nat}
    (h : ∀ j, j < n → p j = false) : (List.range n).find? p = none :=
  List.find?_eq_none.mpr (fun x hx hpx => by
    rw [h x (List.mem_range.mp hx)] at hpx; exact Bool.false_ne_true hpx)

theorem ParameterMap.pass_first_ok (m : ParameterMap) (ct rt : Nat → Bool)
    {i : Nat} (hin : i < m.n_parameters) (hct : ct i = true)
    (hrt : rt i = true) (hmin : ∀ j, j < i → (ct j && rt j) = false) :
    m.pass_first_index_matching_predicate ct rt = Except.ok i := by
  unfold ParameterMap.pass_first_index_matching_predicate
  rw [find?_range_first (fun j => ct j && rt j) hin (by simp [hct, hrt]) hmin]

theorem ParameterMap.pass_first_invalid (m : ParameterMap)
    (ct rt : Nat → Bool)
    (h : ∀ j, j < m.n_parameters → (ct j && rt j) = false) :
    m.pass_first_index_matching_predicate ct rt =
      Except.error Err.invalid_argument := by
  unfold ParameterMap.pass_first_index_matching_predicate
  rw [find?_range_none _ h]

theorem ParameterMap.pass_first_error_elim (m : ParameterMap)
    (ct rt : Nat → Bool) {e : Err}
    (h : m.pass_first_index_matching_predicate ct rt = Except.error e) :
    e = Err.invalid_argument := by
  unfold ParameterMap.pass_first_index_matching_predicate at h
  cases hf : (List.range m.n_parameters).find? (fun i => ct i && rt i) with
  | some i => rw [hf] at h; cases h
  | none => rw [hf] at h; cases h; rfl

theorem hmin_of_hash_distinct (m : ParameterMap) (name : String) (i : Nat)
    (hdist : ∀ j, j < i → m.name_hash_at j ≠ strHash name)
    (ct : Nat → Bool) :
    ∀ j, j < i → (ct j && m.ensure_name_matches name j) = false := by
  intro j hj
  simp [ParameterMap.ensure_name_matches, hdist j hj]

theorem hmin_of_lt_index (ct : Nat → Bool) (index : Nat) :
    ∀ j, j < index → (ct j && (j == index)) = false := by
  intro j hj
  have h : (j == index) = false := by
    simp [Nat.ne_of_lt hj]
  simp [h]

theorem getD_set_self (l : List (Option Val)) {i : Nat} (a d : Option Val)
    (h : i < l.length) : (l.set i a).getD i d = a := by
  rw [List.getD_eq_getElem?_getD, List.getElem?_set_self h]
  rfl

theorem ParameterMap.stored_at_set_ct_self (m : ParameterMap) {i : Nat}
    (v : Val) (hi : i < m.storedValues.length) :
    (m.set_ct i v).stored_at i = convert v (m.type_at i) :=
  getD_set_self m.storedValues _ none hi

theorem ParameterMap.stored_at_clear (m : ParameterMap) (i : Nat) :
    m.clear.stored_at i = none := by
  unfold ParameterMap.clear ParameterMap.stored_at
  rw [List.getD_eq_getElem?_getD, List.getElem?_map]
  cases m.storedValues[i]? <;> rfl

theorem ParameterMap.arg_values_getD (m : ParameterMap) {i : Nat}
    (hi : i < m.storedValues.length) :
    m.arg_values.getD i (Val.vInt 0) = (m.stored_at i).getD (Val.vInt 0) := by
  unfold ParameterMap.arg_values ParameterMap.stored_at
  rw [List.getD_eq_getElem?_getD, List.getElem?_map,
    List.getD_eq_getElem?_getD, List.getElem?_eq_getElem hi]
  rfl

theorem ParameterMap.length_arg_values (m : ParameterMap) :
    m.arg_values.length = m.storedValues.length := by
  unfold ParameterMap.arg_values
  exact List.length_map _ _

theorem ParameterMap.submit_check_true (m : ParameterMap)
    (hfull : ∀ i, i < m.n_parameters → m.is_set_ct i = true) :
    (List.range m.n_parameters).all (fun i => m.is_set_ct i) = true :=
  List.all_eq_true.mpr (fun x hx => hfull x (List.mem_range.mp hx))

theorem ParameterMap.submit_check_false (m : ParameterMap) {i : Nat}
    (hi : i < m.n_parameters) (h : m.is_set_ct i = false) :
    (List.range m.n_parameters).all (fun i => m.is_set_ct i) = false := by
  cases hall : (List.range m.n_parameters).all (fun i => m.is_set_ct i) with
  | false => rfl
  | true =>
    have := List.all_eq_true.mp hall i (List.mem_range.mpr hi)
    rw [h] at this
    exact absurd this Bool.false_ne_true

/-! ### Concrete instances (used by witnesses and counterexamples) -/

/-- The map of the repository's tests and README example:
`ParameterMap<int, bool, const std::string&> map{"myInt", "enabled", "name"}`. -/
def pm3 : ParameterMap :=
  .init [.tInt, .tBool, .tStr] ["myInt", "enabled", "name"]

/-- `pm3` with every slot populated. -/
def pm3full : ParameterMap :=
  ((pm3.set_ct 0 (.vInt 6)).set_ct 1 (.vBool true)).set_ct 2 (.vStr "Homer")

/-- A single-slot map `ParameterMap<bool> {"b"}`. -/
def pmB : ParameterMap :=
  .init [.tBool] ["b"]

/-- A two-slot map whose two slots share the name `"x"`:
`ParameterMap<int, int> {"x", "x"}`. -/
def pmDup : ParameterMap :=
  .init [.tInt, .tInt] ["x", "x"]

/-! ### Claims -/

/-- Claim C1: on a fully populated map, `submit(f)` invokes `f` exactly once,
passing the `n_parameters` stored values in declared slot order, and returns
`f`'s return value unmodified.  The second conjunct instruments the function
with an invocation trace: the trace after the call is exactly one entry
holding the argument list; the last two conjuncts pin the argument list to
the per-slot stored values in declared order. -/
theorem C1_submit_full_invokes_once (m : ParameterMap) (hWF : m.WF)
    (hfull : ∀ i, i < m.n_parameters → m.is_set_ct i = true)
    {ρ : Type} (g : List Val → ρ) :
    m.submit g = Except.ok (g m.arg_values) ∧
    m.submitS (fun (calls : List (List Val)) args => (calls ++ [args], g args))
        [] = (m, [m.arg_values], Except.ok (g m.arg_values)) ∧
    m.arg_values.length = m.n_parameters ∧
    (∀ i, i < m.n_parameters → ∀ v, m.stored_at i = some v →
      m.arg_values.getD i (Val.vInt 0) = v) := by
  have hall := m.submit_check_true hfull
  refine ⟨?_, ?_, ?_, ?_⟩
  · unfold ParameterMap.submit ParameterMap.submitS
    rw [hall]
    simp
  · unfold ParameterMap.submitS
    rw [hall]
    simp
  · rw [m.length_arg_values, hWF.2]
  · intro i hi v hv
    rw [m.arg_values_getD (by rw [hWF.2]; exact hi), hv]
    rfl

/-- Witness for C1 at the populated three-slot example map. -/
theorem C1_submit_full_invokes_once_witness :
    pm3full.submit (fun args => args) = Except.ok pm3full.arg_values :=
  (C1_submit_full_invokes_once pm3full (by decide) (by decide)
    (fun args => args)).1

/-- Claim C2: on a map with at least one empty slot, `submit(f)` fails with
`std::runtime_error` ("missing value"), the supplied function is never
invoked (the external state `s` is untouched; a side-effect counter stays at
zero), and the container's state is unchanged (the map component of the
result is the receiver itself). -/
theorem C2_submit_missing_value (m : ParameterMap) (i : Nat)
    (hi : i < m.n_parameters) (hempty : m.is_set_ct i = false) :
    (∀ (σ ρ : Type) (f : σ → List Val → σ × ρ) (s : σ),
      m.submitS f s = (m, s, Except.error Err.runtime_error)) ∧
    (∀ (ρ : Type) (g : List Val → ρ),
      m.submit g = Except.error Err.runtime_error) ∧
    (m.submitS (fun (count : Nat) args => (count + 1, args)) 0).2.1 = 0 := by
  have hall := m.submit_check_false hi hempty
  have hmain : ∀ (σ ρ : Type) (f : σ → List Val → σ × ρ) (s : σ),
      m.submitS f s = (m, s, Except.error Err.runtime_error) := by
    intro σ ρ f s
    unfold ParameterMap.submitS
    rw [hall]
    simp
  refine ⟨hmain, ?_, ?_⟩
  · intro ρ g
    unfold ParameterMap.submit
    rw [hmain]
  · rw [hmain]

/-- Witness for C2 at the freshly constructed three-slot example map
(slot 0 is empty). -/
theorem C2_submit_missing_value_witness :
    pm3.submit (fun args => args) = Except.error Err.runtime_error :=
  (C2_submit_missing_value pm3 0 (by decide) (by decide)).2.1
    (List Val) (fun args => args)

/-- Claim C10: on a map declared with zero parameters, `submit(f)` never
fails with the missing-value signal: it always invokes the nullary function
(with the empty argument list) and returns its result. -/
theorem C10_submit_nullary (m : ParameterMap) (hWF : m.WF)
    (h0 : m.paramTypes = []) :
    (∀ (ρ : Type) (g : List Val → ρ), m.submit g = Except.ok (g [])) ∧
    (∀ (σ ρ : Type) (f : σ → List Val → σ × ρ) (s : σ),
      m.submitS f s = (m, (f s []).1, Except.ok (f s []).2)) := by
  have hn : m.n_parameters = 0 := by
    unfold ParameterMap.n_parameters
    rw [h0]
    rfl
  have hsv : m.storedValues = [] :=
    List.length_eq_zero.mp (by rw [hWF.2, hn])
  have hargs : m.arg_values = [] := by
    unfold ParameterMap.arg_values
    rw [hsv]
    rfl
  have hall : (List.range m.n_parameters).all (fun i => m.is_set_ct i)
      = true := by
    rw [hn]
    rfl
  have hmain : ∀ (σ ρ : Type) (f : σ → List Val → σ × ρ) (s : σ),
      m.submitS f s = (m, (f s []).1, Except.ok (f s []).2) := by
    intro σ ρ f s
    unfold ParameterMap.submitS
    rw [hall, hargs]
    simp
  refine ⟨?_, hmain⟩
  intro ρ g
  unfold ParameterMap.submit
  rw [hmain]

/-- Witness for C10 at the zero-parameter map. -/
theorem C10_submit_nullary_witness :
    (ParameterMap.init [] []).submit (fun _ => (7 : Nat)) = Except.ok 7 :=
  (C10_submit_nullary (.init [] []) (by decide) rfl).1 Nat (fun _ => 7)

/-- Claim C4 (evaluation at the failing input): on the three-parameter test
map, index `3` makes `set` and `get` throw `std::out_of_range` as claimed,
but `is_set(3)` throws `std::invalid_argument` — the `is_set(size_t)`
overload (header lines 320-326) never calls `throw_if_index_out_of_range`,
contradicting its own doc comment ("@throw std::out_of_range if index is an
invalid index", header line 155) and the claimed behaviour. -/
theorem C4_out_of_range_at_failing_input :
    pm3.set_rt 3 (.vInt 0) = Except.error Err.out_of_range ∧
    pm3.get_rt .tInt 3 = Except.error Err.out_of_range ∧
    pm3.is_set_rt 3 = Except.error Err.invalid_argument ∧
    pm3.is_set_rt 3 ≠ Except.error Err.out_of_range := by
  decide

theorem settable_hmin (m : ParameterMap) (name : String) (v : Val) (i : Nat)
    (hlow : ∀ j, j < i → ¬(m.name_hash_at j = strHash name ∧
      convertible v.ty (m.type_at j) = true)) :
    ∀ j, j < i →
      (m.is_settable_from v.ty j && m.ensure_name_matches name j) = false := by
  intro j hj
  by_cases hh : m.name_hash_at j = strHash name
  · have hc : convertible v.ty (m.type_at j) = false := by
      cases hcv : convertible v.ty (m.type_at j) with
      | true => exact absurd ⟨hh, hcv⟩ (hlow j hj)
      | false => rfl
    simp [ParameterMap.is_settable_from, hc]
  · simp [ParameterMap.ensure_name_matches, hh]

theorem gettable_hmin (m : ParameterMap) (name : String) (t : Ty) (i : Nat)
    (hlow : ∀ j, j < i →
      ¬(m.name_hash_at j = strHash name ∧ t = m.type_at j)) :
    ∀ j, j < i →
      (m.is_gettable_as t j && m.ensure_name_matches name j) = false := by
  intro j hj
  by_cases hh : m.name_hash_at j = strHash name
  · have ht : ¬(t = m.type_at j) := fun hc => hlow j hj ⟨hh, hc⟩
    simp [ParameterMap.is_gettable_as, ht]
  · simp [ParameterMap.ensure_name_matches, hh]

/-- Claim C5: `std::invalid_argument` ("argument mismatch") is thrown by
(a) a by-name `set` when no slot both matches the name hash and is
write-convertible, (b) a by-name `get` when no slot both matches the name
hash and has exactly the requested type — both cover the no-such-name case —
(c) a valid-index `set` when the indexed slot's declared type is not
convertible from the supplied type, and (d) a valid-index `get` when the
indexed slot's declared type differs from the requested one. -/
theorem C5_argument_mismatch (m : ParameterMap) (name : String) (v : Val)
    (t : Ty) (index : Nat) :
    ((∀ j, j < m.n_parameters → ¬(m.name_hash_at j = strHash name ∧
        convertible v.ty (m.type_at j) = true)) →
      m.set_by_name name v = Except.error Err.invalid_argument) ∧
    ((∀ j, j < m.n_parameters →
        ¬(m.name_hash_at j = strHash name ∧ t = m.type_at j)) →
      m.get_by_name t name = Except.error Err.invalid_argument) ∧
    (index < m.n_parameters → convertible v.ty (m.type_at index) = false →
      m.set_rt index v = Except.error Err.invalid_argument) ∧
    (index < m.n_parameters → t ≠ m.type_at index →
      m.get_rt t index = Except.error Err.invalid_argument) := by
  refine ⟨?_, ?_, ?_, ?_⟩
  · intro h
    unfold ParameterMap.set_by_name
    rw [m.pass_first_invalid _ _ (settable_hmin m name v m.n_parameters h)]
  · intro h
    unfold ParameterMap.get_by_name
    rw [m.pass_first_invalid _ _ (gettable_hmin m name t m.n_parameters h)]
  · intro hlt hconv
    unfold ParameterMap.set_rt
    have hb : m.throw_if_index_out_of_range index = Except.ok () := by
      unfold ParameterMap.throw_if_index_out_of_range
      rw [if_neg (by omega)]
    rw [hb, m.pass_first_invalid _ _ ?hmin]
    intro j hj
    by_cases hje : j = index
    · subst hje
      simp [ParameterMap.is_settable_from, hconv]
    · have hbeq : (j == index) = false := by simp [hje]
      simp [hbeq]
  · intro hlt hne
    unfold ParameterMap.get_rt
    have hb : m.throw_if_index_out_of_range index = Except.ok () := by
      unfold ParameterMap.throw_if_index_out_of_range
      rw [if_neg (by omega)]
    rw [hb, m.pass_first_invalid _ _ ?hmin2]
    intro j hj
    by_cases hje : j = index
    · subst hje
      simp [ParameterMap.is_gettable_as, hne]
    · have hbeq : (j == index) = false := by simp [hje]
      simp [hbeq]

/-- Witness for C5 at concrete mismatching inputs on the three-slot map:
an unknown name for (a)/(b); a `std::string` value and requested type on the
`int` slot 0 for (c)/(d). -/
theorem C5_argument_mismatch_witness :
    pm3.set_by_name "nope" (.vStr "x") = Except.error Err.invalid_argument ∧
    pm3.get_by_name .tStr "nope" = Except.error Err.invalid_argument ∧
    pm3.set_rt 0 (.vStr "x") = Except.error Err.invalid_argument ∧
    pm3.get_rt .tStr 0 = Except.error Err.invalid_argument :=
  ⟨(C5_argument_mismatch pm3 "nope" (.vStr "x") .tStr 0).1 (by decide),
   (C5_argument_mismatch pm3 "nope" (.vStr "x") .tStr 0).2.1 (by decide),
   (C5_argument_mismatch pm3 "nope" (.vStr "x") .tStr 0).2.2.1 (by decide)
     (by decide),
   (C5_argument_mismatch pm3 "nope" (.vStr "x") .tStr 0).2.2.2 (by decide)
     (by decide)⟩

/-- Claim C6: with duplicate names allowed, every by-name operation acts on
the lowest-index slot whose stored name hash equals the supplied name's hash
and which satisfies the operation's compile-time type predicate
(`IsSettableFrom` for `set`, `IsGettableAs` for `get`, `TruePredicate` for
`is_set`). -/
theorem C6_duplicate_names_lowest_index (m : ParameterMap) (name : String)
    (i : Nat) (hi : i < m.n_parameters)
    (hname : m.name_hash_at i = strHash name) :
    (∀ v : Val, convertible v.ty (m.type_at i) = true →
      (∀ j, j < i → ¬(m.name_hash_at j = strHash name ∧
        convertible v.ty (m.type_at j) = true)) →
      m.set_by_name name v = Except.ok (m.set_ct i v)) ∧
    (∀ t : Ty, t = m.type_at i →
      (∀ j, j < i → ¬(m.name_hash_at j = strHash name ∧ t = m.type_at j)) →
      m.get_by_name t name = m.get_ct i) ∧
    ((∀ j, j < i → m.name_hash_at j ≠ strHash name) →
      m.is_set_by_name name = Except.ok (m.is_set_ct i)) := by
  have hrt : m.ensure_name_matches name i = true := by
    simp [ParameterMap.ensure_name_matches, hname]
  refine ⟨?_, ?_, ?_⟩
  · intro v hconv hlow
    unfold ParameterMap.set_by_name
    rw [m.pass_first_ok _ _ hi hconv hrt (settable_hmin m name v i hlow)]
  · intro t ht hlow
    unfold ParameterMap.get_by_name
    have hct : m.is_gettable_as t i = true := by
      simp [ParameterMap.is_gettable_as, ht]
    rw [m.pass_first_ok _ _ hi hct hrt (gettable_hmin m name t i hlow)]
  · intro hlow
    unfold ParameterMap.is_set_by_name
    rw [m.pass_first_ok _ _ hi rfl hrt
      (hmin_of_hash_distinct m name i hlow m.true_predicate)]

/-- Witness for C6 at the duplicate-name map `{"x", "x"}`: every by-name
operation lands on slot 0, the lowest matching index. -/
theorem C6_duplicate_names_lowest_index_witness :
    pmDup.set_by_name "x" (.vInt 7) = Except.ok (pmDup.set_ct 0 (.vInt 7)) ∧
    pmDup.get_by_name .tInt "x" = pmDup.get_ct 0 ∧
    pmDup.is_set_by_name "x" = Except.ok (pmDup.is_set_ct 0) :=
  ⟨(C6_duplicate_names_lowest_index pmDup "x" 0 (by decide) (by decide)).1
     (.vInt 7) (by decide) (by decide),
   (C6_duplicate_names_lowest_index pmDup "x" 0 (by decide) (by decide)).2.1
     .tInt (by decide) (by decide),
   (C6_duplicate_names_lowest_index pmDup "x" 0 (by decide) (by decide)).2.2
     (by decide)⟩

/-- Claim C7: `clear()` is total (never fails), afterwards every slot is
empty in every addressing mode (by name: either the resolved slot reports
false, or the name resolves to no slot at all and the argument-mismatch
error is raised as for any unknown name), and `clear` is idempotent. -/
theorem C7_clear_resets_all (m : ParameterMap) :
    (∀ i, m.clear.is_set_ct i = false) ∧
    (∀ index, index < m.n_parameters →
      m.clear.is_set_rt index = Except.ok false) ∧
    (∀ name, m.clear.is_set_by_name name = Except.ok false ∨
      m.clear.is_set_by_name name = Except.error Err.invalid_argument) ∧
    m.clear.clear = m.clear := by
  have hempty : ∀ i, m.clear.is_set_ct i = false := by
    intro i
    unfold ParameterMap.is_set_ct
    rw [m.stored_at_clear]
    rfl
  refine ⟨hempty, ?_, ?_, ?_⟩
  · intro index hidx
    unfold ParameterMap.is_set_rt
    rw [(m.clear).pass_first_ok m.clear.true_predicate (fun i => i == index)
      hidx rfl (by simp) (hmin_of_lt_index _ index)]
    show Except.ok (m.clear.is_set_ct index) = Except.ok false
    rw [hempty index]
  · intro name
    cases hp : m.clear.pass_first_index_matching_predicate
        m.clear.true_predicate (m.clear.ensure_name_matches name) with
    | ok i =>
      left
      unfold ParameterMap.is_set_by_name
      rw [hp]
      show Except.ok (m.clear.is_set_ct i) = Except.ok false
      rw [hempty i]
    | error e =>
      right
      unfold ParameterMap.is_set_by_name
      rw [hp, ParameterMap.pass_first_error_elim _ _ _ hp]
  · unfold ParameterMap.clear
    simp [List.map_map]

/-- Witness for C7 at the fully populated three-slot map. -/
theorem C7_clear_resets_all_witness :
    pm3full.clear.clear = pm3full.clear ∧
    pm3full.clear.is_set_ct 0 = false ∧
    pm3full.clear.is_set_rt 1 = Except.ok false :=
  ⟨(C7_clear_resets_all pm3full).2.2.2,
   (C7_clear_resets_all pm3full).1 0,
   (C7_clear_resets_all pm3full).2.1 1 (by decide)⟩

/-- Shared workhorse for the set/get round-trip claims: when `v`'s base type
equals slot `i`'s declared type and no lower-indexed slot hash-matches
`name`, all three `set` addressing modes store `some v` into slot `i`, and
on the updated map all three `is_set` modes report true and all three `get`
modes (at the declared type) return exactly `v`. -/
theorem ParameterMap.set_get_all_modes (m : ParameterMap) (i : Nat)
    (name : String) (v : Val) (hWF : m.WF) (hi : i < m.n_parameters)
    (hty : v.ty = m.type_at i) (hname : m.name_hash_at i = strHash name)
    (hdist : ∀ j, j < i → m.name_hash_at j ≠ strHash name) :
    m.set_by_name name v = Except.ok (m.set_ct i v) ∧
    m.set_rt i v = Except.ok (m.set_ct i v) ∧
    (m.set_ct i v).stored_at i = some v ∧
    (m.set_ct i v).is_set_ct i = true ∧
    (m.set_ct i v).is_set_rt i = Except.ok true ∧
    (m.set_ct i v).is_set_by_name name = Except.ok true ∧
    (m.set_ct i v).get_ct i = Except.ok v ∧
    (m.set_ct i v).get_rt v.ty i = Except.ok v ∧
    (m.set_ct i v).get_by_name v.ty name = Except.ok v := by
  have hconv : convertible v.ty (m.type_at i) = true := by
    rw [hty]; exact convertible_refl _
  have hrtname : m.ensure_name_matches name i = true := by
    simp [ParameterMap.ensure_name_matches, hname]
  have hstore : (m.set_ct i v).stored_at i = some v := by
    rw [m.stored_at_set_ct_self v (by rw [hWF.2]; exact hi),
      convert_of_ty_eq hty]
  have hset : (m.set_ct i v).is_set_ct i = true := by
    unfold ParameterMap.is_set_ct
    rw [hstore]
    rfl
  have hb : m.throw_if_index_out_of_range i = Except.ok () := by
    unfold ParameterMap.throw_if_index_out_of_range
    rw [if_neg (by omega)]
  have hgett : (m.set_ct i v).is_gettable_as v.ty i = true := by
    show m.is_gettable_as v.ty i = true
    simp [ParameterMap.is_gettable_as, hty]
  have hgetct : (m.set_ct i v).get_ct i = Except.ok v := by
    unfold ParameterMap.get_ct
    rw [hstore]
  refine ⟨?_, ?_, hstore, hset, ?_, ?_, hgetct, ?_, ?_⟩
  · unfold ParameterMap.set_by_name
    rw [m.pass_first_ok _ _ hi hconv hrtname
      (settable_hmin m name v i (fun j hj hc => hdist j hj hc.1))]
  · unfold ParameterMap.set_rt
    rw [hb, m.pass_first_ok _ _ hi hconv (by simp) (hmin_of_lt_index _ i)]
  · unfold ParameterMap.is_set_rt
    rw [(m.set_ct i v).pass_first_ok _ _ hi rfl (by simp)
      (hmin_of_lt_index _ i)]
    show Except.ok ((m.set_ct i v).is_set_ct i) = Except.ok true
    rw [hset]
  · unfold ParameterMap.is_set_by_name
    rw [(m.set_ct i v).pass_first_ok _ _ hi rfl
      (show (m.set_ct i v).ensure_name_matches name i = true from hrtname)
      (hmin_of_hash_distinct (m.set_ct i v) name i hdist
        (m.set_ct i v).true_predicate)]
    show Except.ok ((m.set_ct i v).is_set_ct i) = Except.ok true
    rw [hset]
  · unfold ParameterMap.get_rt
    rw [(show (m.set_ct i v).throw_if_index_out_of_range i = Except.ok ()
        from hb),
      (m.set_ct i v).pass_first_ok _ _ hi hgett (by simp)
        (hmin_of_lt_index _ i)]
    exact hgetct
  · unfold ParameterMap.get_by_name
    rw [(m.set_ct i v).pass_first_ok _ _ hi hgett
      (show (m.set_ct i v).ensure_name_matches name i = true from hrtname)
      (gettable_hmin (m.set_ct i v) name v.ty i
        (fun j hj hc => hdist j hj hc.1))]
    exact hgetct

/-- Claim C3 as amended: for a slot `i` whose name hash is distinct from
every other slot's, and a value `v` whose base type EQUALS slot `i`'s
declared type (merely convertible values are altered by the conversion the
store performs — see the counterexample), each of the three `set` addressing
modes stores `v` into slot `i`; afterwards `is_set` for slot `i` reports
true in all three addressing modes, and `get` at the declared type returns
exactly `v` in all three addressing modes. -/
theorem C3_set_then_get_every_mode (m : ParameterMap) (i : Nat)
    (name : String) (v : Val) (hWF : m.WF) (hi : i < m.n_parameters)
    (hty : v.ty = m.type_at i) (hname : m.name_hash_at i = strHash name)
    (hdist : ∀ j, j < m.n_parameters → j ≠ i →
      m.name_hash_at j ≠ strHash name) :
    m.set_by_name name v = Except.ok (m.set_ct i v) ∧
    m.set_rt i v = Except.ok (m.set_ct i v) ∧
    (m.set_ct i v).is_set_ct i = true ∧
    (m.set_ct i v).is_set_rt i = Except.ok true ∧
    (m.set_ct i v).is_set_by_name name = Except.ok true ∧
    (m.set_ct i v).get_ct i = Except.ok v ∧
    (m.set_ct i v).get_rt v.ty i = Except.ok v ∧
    (m.set_ct i v).get_by_name v.ty name = Except.ok v := by
  have h := m.set_get_all_modes i name v hWF hi hty hname
    (fun j hj => hdist j (Nat.lt_trans hj hi) (Nat.ne_of_lt hj))
  exact ⟨h.1, h.2.1, h.2.2.2.1, h.2.2.2.2.1, h.2.2.2.2.2.1,
    h.2.2.2.2.2.2.1, h.2.2.2.2.2.2.2.1, h.2.2.2.2.2.2.2.2⟩

/-- Counterexample to claim C3 as stated: the value `int 5` is compatible
(convertible) with the `bool` slot of `pmB`, and `set` by name accepts it,
but the store converts it to `true`; `get` at the slot's (matching) type
returns `true ≠ 5` in every addressing mode, and `get` at the value's own
type fails — so no `get` returns "exactly v". -/
theorem C3_counterexample_convertible_value_altered :
    convertible (Val.vInt 5).ty (pmB.type_at 0) = true ∧
    pmB.set_by_name "b" (.vInt 5) = Except.ok (pmB.set_ct 0 (.vInt 5)) ∧
    (pmB.set_ct 0 (.vInt 5)).get_ct 0 = Except.ok (.vBool true) ∧
    (pmB.set_ct 0 (.vInt 5)).get_rt .tBool 0 = Except.ok (.vBool true) ∧
    (pmB.set_ct 0 (.vInt 5)).get_by_name .tBool "b"
      = Except.ok (.vBool true) ∧
    Val.vBool true ≠ Val.vInt 5 ∧
    (pmB.set_ct 0 (.vInt 5)).get_by_name .tInt "b"
      = Except.error Err.invalid_argument := by
  decide

/-- Witness for C3 (amended) at slot 1 ("enabled", `bool`) of the three-slot
map. -/
theorem C3_set_then_get_every_mode_witness :
    pm3.set_by_name "enabled" (.vBool true)
      = Except.ok (pm3.set_ct 1 (.vBool true)) ∧
    pm3.set_rt 1 (.vBool true) = Except.ok (pm3.set_ct 1 (.vBool true)) ∧
    (pm3.set_ct 1 (.vBool true)).is_set_ct 1 = true ∧
    (pm3.set_ct 1 (.vBool true)).is_set_rt 1 = Except.ok true ∧
    (pm3.set_ct 1 (.vBool true)).is_set_by_name "enabled"
      = Except.ok true ∧
    (pm3.set_ct 1 (.vBool true)).get_ct 1 = Except.ok (.vBool true) ∧
    (pm3.set_ct 1 (.vBool true)).get_rt (Val.vBool true).ty 1
      = Except.ok (.vBool true) ∧
    (pm3.set_ct 1 (.vBool true)).get_by_name (Val.vBool true).ty "enabled"
      = Except.ok (.vBool true) :=
  C3_set_then_get_every_mode pm3 1 "enabled" (.vBool true) (by decide)
    (by decide) (by decide) (by decide) (by decide)

/-- `pmB` with its single `bool` slot already occupied (by `false`). -/
def pmB2 : ParameterMap :=
  pmB.set_ct 0 (.vBool false)

/-- Claim C9 as amended: a second `set` on an already occupied slot with ANY
compatible (convertible) value `v'` always succeeds in every addressing mode
— occupancy is never consulted — and afterwards the slot holds exactly the
stored conversion of `v'`, with no trace of the prior value; when `v'` has
the slot's declared base type the conversion is the identity, so the slot
holds exactly `some v'` and every `get` mode at the declared type returns
exactly `v'` (a merely convertible `v'` is stored as its converted value —
see the counterexample). -/
theorem C9_overwrite_always_succeeds (m : ParameterMap) (i : Nat)
    (name : String) (v' : Val) (hWF : m.WF) (hi : i < m.n_parameters)
    (_hocc : m.is_set_ct i = true)
    (hconv : convertible v'.ty (m.type_at i) = true)
    (hname : m.name_hash_at i = strHash name)
    (hdist : ∀ j, j < i → m.name_hash_at j ≠ strHash name) :
    m.set_by_name name v' = Except.ok (m.set_ct i v') ∧
    m.set_rt i v' = Except.ok (m.set_ct i v') ∧
    (m.set_ct i v').stored_at i = convert v' (m.type_at i) ∧
    (v'.ty = m.type_at i →
      (m.set_ct i v').stored_at i = some v' ∧
      (m.set_ct i v').get_ct i = Except.ok v' ∧
      (m.set_ct i v').get_rt v'.ty i = Except.ok v' ∧
      (m.set_ct i v').get_by_name v'.ty name = Except.ok v') := by
  have hrtname : m.ensure_name_matches name i = true := by
    simp [ParameterMap.ensure_name_matches, hname]
  refine ⟨?_, ?_, ?_, ?_⟩
  · unfold ParameterMap.set_by_name
    rw [m.pass_first_ok _ _ hi hconv hrtname
      (settable_hmin m name v' i (fun j hj hc => hdist j hj hc.1))]
  · unfold ParameterMap.set_rt
    have hb : m.throw_if_index_out_of_range i = Except.ok () := by
      unfold ParameterMap.throw_if_index_out_of_range
      rw [if_neg (by omega)]
    rw [hb, m.pass_first_ok _ _ hi hconv (by simp) (hmin_of_lt_index _ i)]
  · exact m.stored_at_set_ct_self v' (by rw [hWF.2]; exact hi)
  · intro hty
    have h := m.set_get_all_modes i name v' hWF hi hty hname hdist
    exact ⟨h.2.2.1, h.2.2.2.2.2.2.1, h.2.2.2.2.2.2.2.1,
      h.2.2.2.2.2.2.2.2⟩

/-- Counterexample to claim C9 as stated: `pmB2`'s `bool` slot is occupied;
the value `int 7` is compatible (convertible), the overwrite succeeds, but
the slot then holds the converted `true`, not `7`: `get` does not return
"exactly v'". -/
theorem C9_counterexample_convertible_value_altered :
    pmB2.is_set_ct 0 = true ∧
    convertible (Val.vInt 7).ty (pmB2.type_at 0) = true ∧
    pmB2.set_by_name "b" (.vInt 7) = Except.ok (pmB2.set_ct 0 (.vInt 7)) ∧
    (pmB2.set_ct 0 (.vInt 7)).get_ct 0 = Except.ok (.vBool true) ∧
    Val.vBool true ≠ Val.vInt 7 := by
  decide

/-- Witness for C9 (amended), applying the theorem at two concrete inputs:
overwriting the occupied `bool` slot of `pmB2` with the merely convertible
`int 7` (every set mode succeeds, the slot then holds the conversion
`true`), and overwriting the occupied `int` slot 0 of the fully populated
three-slot map with `2` of the declared type (every get mode returns
exactly `2`). -/
theorem C9_overwrite_always_succeeds_witness :
    pmB2.set_by_name "b" (.vInt 7) = Except.ok (pmB2.set_ct 0 (.vInt 7)) ∧
    pmB2.set_rt 0 (.vInt 7) = Except.ok (pmB2.set_ct 0 (.vInt 7)) ∧
    (pmB2.set_ct 0 (.vInt 7)).stored_at 0 = some (.vBool true) ∧
    pm3full.set_by_name "myInt" (.vInt 2)
      = Except.ok (pm3full.set_ct 0 (.vInt 2)) ∧
    pm3full.set_rt 0 (.vInt 2) = Except.ok (pm3full.set_ct 0 (.vInt 2)) ∧
    (pm3full.set_ct 0 (.vInt 2)).stored_at 0 = some (.vInt 2) ∧
    (pm3full.set_ct 0 (.vInt 2)).get_ct 0 = Except.ok (.vInt 2) ∧
    (pm3full.set_ct 0 (.vInt 2)).get_rt (Val.vInt 2).ty 0
      = Except.ok (.vInt 2) ∧
    (pm3full.set_ct 0 (.vInt 2)).get_by_name (Val.vInt 2).ty "myInt"
      = Except.ok (.vInt 2) :=
  have hB := C9_overwrite_always_succeeds pmB2 0 "b" (.vInt 7) (by decide)
    (by decide) (by decide) (by decide) (by decide) (by decide)
  have h3 := C9_overwrite_always_succeeds pm3full 0 "myInt" (.vInt 2)
    (by decide) (by decide) (by decide) (by decide) (by decide) (by decide)
  have h3ty := h3.2.2.2 (by decide)
  ⟨hB.1, hB.2.1,
   hB.2.2.1.trans (by decide),
   h3.1, h3.2.1, h3ty.1, h3ty.2.1, h3ty.2.2.1, h3ty.2.2.2⟩

/-- Claim C8: `submit` never mutates the container — for every function
(effectful or not) and external state, the map component of the result is
the receiver itself, whether the call succeeds or fails — and on a fully
populated map two consecutive `submit` calls with the same pure function
both succeed and return the same result. -/
theorem C8_submit_never_mutates (m : ParameterMap) :
    (∀ (σ ρ : Type) (f : σ → List Val → σ × ρ) (s : σ),
      (m.submitS f s).1 = m) ∧
    ((∀ i, i < m.n_parameters → m.is_set_ct i = true) →
      ∀ (ρ : Type) (g : List Val → ρ),
        m.submit g = Except.ok (g m.arg_values) ∧
        ((m.submitS (fun (u : Unit) args => (u, g args)) ()).1).submit g
          = Except.ok (g m.arg_values)) := by
  have hframe : ∀ (σ ρ : Type) (f : σ → List Val → σ × ρ) (s : σ),
      (m.submitS f s).1 = m := by
    intro σ ρ f s
    unfold ParameterMap.submitS
    split <;> rfl
  refine ⟨hframe, ?_⟩
  intro hfull ρ g
  have hall := m.submit_check_true hfull
  have hok : m.submit g = Except.ok (g m.arg_values) := by
    unfold ParameterMap.submit ParameterMap.submitS
    rw [hall]
    simp
  refine ⟨hok, ?_⟩
  rw [hframe Unit ρ (fun u args => (u, g args)) ()]
  exact hok

/-- Witness for C8 at the fully populated three-slot map: a (failing-free)
call leaves the map unchanged, and a second `submit` on the result of the
first returns the same value. -/
theorem C8_submit_never_mutates_witness :
    (pm3full.submitS (fun (u : Unit) _ => (u, (0 : Nat))) ()).1
      = pm3full ∧
    ((pm3full.submitS (fun (u : Unit) args => (u, args)) ()).1).submit
        (fun args => args) = Except.ok pm3full.arg_values :=
  ⟨(C8_submit_never_mutates pm3full).1 Unit Nat (fun u _ => (u, 0)) (),
   ((C8_submit_never_mutates pm3full).2 (by decide) (List Val)
     (fun args => args)).2⟩

end qbouts
